import Mathlib

/-!
Verification development for the restaurant-management-system backend:
a shallow embedding in Lean 4 of the demand-forecasting engine
(backend/ml_predictions.py) and the background sync service
(backend/sync_service.py), together with the persistence layer for
predictions (backend/database.py, save_predictions, over the
predictions table whose key is UNIQUE(dish_id, prediction_date, period)).

Numeric modelling: Python floats are modelled as rationals (ℚ); the
Python builtin int() (truncation toward zero) is pyInt; Python round(x)
is Mathlib round; round(x, 1) is pyRound1.
-/

namespace RMS

/-- Python int() on a rational: truncation toward zero. -/
def pyInt (q : ℚ) : ℤ := if 0 ≤ q then ⌊q⌋ else ⌈q⌉

/-- Python round(x, 1): rounding to one decimal place. -/
def pyRound1 (q : ℚ) : ℚ := (round (q * 10) : ℚ) / 10

/-- pandas Series.mean over the values of a list. -/
def listMean (l : List ℚ) : ℚ := l.sum / (l.length : ℚ)

/-- pandas DataFrame.tail(n): the last n rows. -/
def pyTail (n : ℕ) (l : List α) : List α := l.drop (l.length - n)

/-- One row of the historical-order DataFrame handed to the prediction
engine: dish identity, daypart, the date fields Prophet-side code reads
off the ds column (pandas day-of-week 0 = Monday .. 6 = Sunday, month
1..12), and the quantity column y. -/
structure Row where
  dish_id : String
  dish_name : String
  period : String
  dayofweek : ℕ
  month : ℕ
  y : ℚ
deriving Repr, DecidableEq

/-- The date fields of the forecast target date used by the engine. -/
structure PyDate where
  dayofweek : ℕ
  month : ℕ
deriving Repr, DecidableEq

/-- The prediction dict built by PredictionEngine._predict_dish_demand,
which is also exactly the payload persisted per row of the predictions
table by DatabaseManager.save_predictions. -/
structure Forecast where
  dish_id : String
  dish_name : String
  period : String
  predicted_demand : ℤ
  confidence : ℚ
  recommended_prep : ℤ
  factors : List String
  prediction_date : String
deriving Repr, DecidableEq

/-- The outcome of fitting the Prophet model on a prepared series and
predicting the target date: none models an exception anywhere in the
fit/predict section (caught by the enclosing try of
_predict_dish_demand, which then returns None); some (yhat,
yhat_lower, yhat_upper) are the raw columns read from the forecast
frame. -/
def FitOracle : Type := List Row → Option (ℚ × ℚ × ℚ)

/-- The filter df[(df.dish_id == dish_id) & (df.period == period)]. -/
def dishData (df : List Row) (dish_id period : String) : List Row :=
  df.filter (fun r => r.dish_id = dish_id ∧ r.period = period)

def dowNames : List String :=
  ["Monday", "Tuesday", "Wednesday", "Thursday", "Friday", "Saturday", "Sunday"]

/-- Day-of-week section of _analyze_prediction_factors. The
weekend/weekday comparison uses pandas means, whose value on an empty
selection is NaN and therefore fails both strict comparisons; the
empty-selection guard encodes that. -/
def weekend_factor (target : PyDate) (hist : List Row) : List String :=
  if 5 ≤ target.dayofweek then
    let wkndY := (hist.filter (fun r => 5 ≤ r.dayofweek)).map Row.y
    let wkdyY := (hist.filter (fun r => r.dayofweek < 5)).map Row.y
    if wkndY.length = 0 ∨ wkdyY.length = 0 then []
    else if listMean wkdyY * (12/10) < listMean wkndY then
      ["Weekend boost (" ++ dowNames.getD target.dayofweek "" ++ ")"]
    else if listMean wkndY < listMean wkdyY * (8/10) then
      ["Weekend decline (" ++ dowNames.getD target.dayofweek "" ++ ")"]
    else []
  else ["Weekday pattern (" ++ dowNames.getD target.dayofweek "" ++ ")"]

/-- Period-specific section of _analyze_prediction_factors. -/
def period_factor (period : String) : List String :=
  if period = "morning" then ["Breakfast/morning rush"]
  else if period = "afternoon" then ["Lunch period demand"]
  else if period = "evening" then ["Dinner rush period"]
  else []

/-- Trend-analysis section of _analyze_prediction_factors: compares the
mean of the last 10 observations against the overall mean, only when at
least 5 recent observations exist. -/
def trend_factor (hist : List Row) : List String :=
  let recent := pyTail 10 hist
  if 5 ≤ recent.length then
    let recentAvg := listMean (recent.map Row.y)
    let overallAvg := listMean (hist.map Row.y)
    if overallAvg * (115/100) < recentAvg then ["Upward trend detected"]
    else if recentAvg < overallAvg * (85/100) then ["Downward trend detected"]
    else ["Stable demand pattern"]
  else []

/-- Seasonality section of _analyze_prediction_factors. -/
def season_factor (target : PyDate) : List String :=
  if target.month = 12 ∨ target.month = 1 ∨ target.month = 2 then
    ["Winter seasonality"]
  else if target.month = 6 ∨ target.month = 7 ∨ target.month = 8 then
    ["Summer seasonality"]
  else []

/-- PredictionEngine._analyze_prediction_factors: the four sections in
order, truncated to the first 4 entries. -/
def analyze_prediction_factors (target : PyDate) (period : String)
    (hist : List Row) : List String :=
  (weekend_factor target hist ++ period_factor period ++
    trend_factor hist ++ season_factor target).take 4

/-- PredictionEngine._predict_dish_demand. Every exception raised in the
body is caught and turned into None; the fit/predict section is the
only fallible part and is abstracted by the fit oracle. -/
def predict_dish_demand (df : List Row) (dish_id dish_name period : String)
    (target : PyDate) (target_date : String) (fit : FitOracle) :
    Option Forecast :=
  let dd := dishData df dish_id period
  if dd.length < 5 then
    let avg_demand : ℚ := if 0 < dd.length then listMean (dd.map Row.y) else 5
    some { dish_id := dish_id, dish_name := dish_name, period := period
           predicted_demand := max 1 (pyInt avg_demand)
           confidence := 60
           recommended_prep := max 2 (pyInt (avg_demand * (12/10)))
           factors := ["Limited historical data", "Fallback average"]
           prediction_date := target_date }
  else
    match fit dd with
    | none => none
    | some (yhat, yhatLower, yhatUpper) =>
      let predicted_value : ℚ := max 1 yhat
      let lower_bound : ℚ := max 0 yhatLower
      let upper_bound : ℚ := yhatUpper
      let interval_width : ℚ := upper_bound - lower_bound
      let avg_historical : ℚ := listMean (dd.map Row.y)
      let confidence : ℚ :=
        max 50 (min 95 (100 - interval_width / avg_historical * 100))
      let factors := analyze_prediction_factors target period dd
      let safety_multiplier : ℚ := if 80 < confidence then 12/10 else 13/10
      let recommended_prep : ℤ := max 2 (pyInt (predicted_value * safety_multiplier))
      some { dish_id := dish_id, dish_name := dish_name, period := period
             predicted_demand := pyInt predicted_value
             confidence := pyRound1 confidence
             recommended_prep := recommended_prep
             factors := factors
             prediction_date := target_date }

/-- The three dayparts iterated by generate_predictions. -/
def periods : List String := ["morning", "afternoon", "evening"]

/-- pandas drop_duplicates over the (dish_id, dish_name) projection:
first occurrences kept, in order of first appearance. -/
def unique_dishes (df : List Row) : List (String × String) :=
  (df.map (fun r => (r.dish_id, r.dish_name))).foldl
    (fun acc x => if x ∈ acc then acc else acc ++ [x]) []

/-- The return dict of PredictionEngine.generate_predictions.
dishes_processed is none when the key is absent from the dict (the
empty-history early return omits it). -/
structure GenResult where
  predictions_generated : ℕ
  dishes_processed : Option ℕ
  target_date : Option String
  message : String
deriving Repr, DecidableEq

/-- PredictionEngine.generate_predictions: the returned dict together
with the list of predictions it accumulated (in accumulation order).
Each (dish, period) call sits in a try/except that logs and continues,
and _predict_dish_demand itself returns None on fit failure; both are
the filterMap skip. -/
def generate_predictions (df : List Row) (target : PyDate)
    (target_date : String) (fit : FitOracle) : GenResult × List Forecast :=
  if df.length = 0 then
    ({ predictions_generated := 0, dishes_processed := none
       target_date := none, message := "No historical data available" }, [])
  else
    let dishes := unique_dishes df
    let preds := dishes.flatMap (fun d =>
      periods.filterMap (fun p =>
        predict_dish_demand df d.1 d.2 p target target_date fit))
    ({ predictions_generated := preds.length
       dishes_processed := some dishes.length
       target_date := some target_date
       message := "Predictions generated successfully" }, preds)

/-- SQLite INSERT OR REPLACE on the predictions table: the UNIQUE key
(dish_id, prediction_date, period) of a forecast row. -/
def predKey (f : Forecast) : String × String × String :=
  (f.dish_id, f.prediction_date, f.period)

/-- One INSERT OR REPLACE into the predictions table: any row
conflicting on the UNIQUE(dish_id, prediction_date, period) key is
deleted and the new row inserted. -/
def insertOrReplace (table : List Forecast) (f : Forecast) : List Forecast :=
  table.filter (fun r => predKey r ≠ predKey f) ++ [f]

/-- DatabaseManager.save_predictions: each prediction dict is written
with INSERT OR REPLACE, in list order, in one transaction. -/
def save_predictions (table : List Forecast) (preds : List Forecast) :
    List Forecast :=
  preds.foldl insertOrReplace table

/-- generate_predictions followed by the persistence step: predictions
are saved only when the accumulated list is non-empty (if predictions:
save_predictions). Returns the result dict and the new table state. -/
def generate_and_save (df : List Row) (target : PyDate) (target_date : String)
    (fit : FitOracle) (table : List Forecast) : GenResult × List Forecast :=
  let rp := generate_predictions df target target_date fit
  (rp.1, if rp.2.length = 0 then table else save_predictions table rp.2)

/-- One row of the sync_log table as written by
SyncService._log_sync_operation. -/
structure SyncLogEntry where
  sync_type : String
  status : String
  records_affected : ℕ
  error_message : Option String
deriving Repr, DecidableEq

/-- The in-process state of SyncService together with the sync_log
table it writes through the database. -/
structure SyncState where
  is_running : Bool
  last_sync : Option String
  sync_interval : ℕ
  errors : List String
  sync_log : List SyncLogEntry
deriving Repr, DecidableEq

/-- The outcome of the body of one sync cycle (analytics + predictions
+ cleanup): either the records affected, or the message of the
exception that escaped, or a cancellation arriving during the cycle. -/
inductive CycleOutcome where
  | success (records : ℕ)
  | failure (msg : String)
  | cancelled
deriving Repr, DecidableEq

/-- SyncService.manual_sync at a given current time: on success it sets
last_sync and appends a success entry to the sync log; on failure it
appends the timestamped error to the in-memory errors list, appends an
error entry to the sync log, and re-raises. The Except value is the
return/raise of the Python call. -/
def manual_sync (now : String) (st : SyncState) (outcome : CycleOutcome) :
    SyncState × Except String Unit :=
  match outcome with
  | .success records =>
    ({ st with last_sync := some now
               sync_log := st.sync_log ++
                 [{ sync_type := "auto_sync", status := "success"
                    records_affected := records, error_message := none }] },
     .ok ())
  | .failure msg =>
    let error_msg := "Sync failed: " ++ msg
    ({ st with errors := st.errors ++ [now ++ ": " ++ error_msg]
               sync_log := st.sync_log ++
                 [{ sync_type := "auto_sync", status := "error"
                    records_affected := 0, error_message := some error_msg }] },
     .error msg)
  | .cancelled => (st, .error "CancelledError")

/-- What one iteration of SyncService._sync_loop does next. -/
inductive LoopAction where
  | exited
  | broke
  | continuing (sleep_seconds : ℕ)
deriving Repr, DecidableEq

/-- One iteration of the while loop in SyncService._sync_loop: if
is_running is false the loop exits; a CancelledError breaks it; a cycle
failure is caught by the except Exception handler, which appends the
timestamped message to the errors list and sleeps 60 seconds before the
next iteration; a successful cycle sleeps sync_interval. -/
def sync_loop_step (now : String) (st : SyncState) (outcome : CycleOutcome) :
    SyncState × LoopAction :=
  if st.is_running = false then (st, .exited)
  else
    match outcome with
    | .cancelled => (st, .broke)
    | .success records =>
      ((manual_sync now st (.success records)).1, .continuing st.sync_interval)
    | .failure msg =>
      let st1 := (manual_sync now st (.failure msg)).1
      ({ st1 with errors := st1.errors ++ [now ++ ": " ++ msg] },
       .continuing 60)

/-- Iterating the sync loop over a finite prefix of cycle outcomes,
returning the final state and the action that ended the run (continuing
means more iterations are still to come). -/
def sync_loop_run (st : SyncState) :
    List (String × CycleOutcome) → SyncState × LoopAction
  | [] => (st, .continuing st.sync_interval)
  | (now, outcome) :: rest =>
    match sync_loop_step now st outcome with
    | (st1, .continuing _) => sync_loop_run st1 rest
    | (st1, act) => (st1, act)

/-- The snapshot returned by SyncService.get_status. -/
structure SyncStatus where
  is_running : Bool
  last_sync : Option String
  sync_interval_minutes : ℕ
  recent_errors : List String
  total_errors : ℕ
deriving Repr, DecidableEq

/-- SyncService.get_status: errors[-5:] is the last five entries. -/
def get_status (st : SyncState) : SyncStatus :=
  { is_running := st.is_running
    last_sync := st.last_sync
    sync_interval_minutes := st.sync_interval / 60
    recent_errors := pyTail 5 st.errors
    total_errors := st.errors.length }

/-! Helper lemmas about the numeric primitives. -/

theorem pyInt_of_nonneg {q : ℚ} (h : 0 ≤ q) : pyInt q = ⌊q⌋ := if_pos h

theorem le_pyInt {n : ℤ} {q : ℚ} (hn : 0 ≤ n) (h : (n : ℚ) ≤ q) : n ≤ pyInt q := by
  have hq : (0:ℚ) ≤ q := le_trans (by exact_mod_cast hn) h
  rw [pyInt_of_nonneg hq]
  exact Int.le_floor.mpr h

theorem pyInt_mono {a b : ℚ} (ha : 0 ≤ a) (hab : a ≤ b) : pyInt a ≤ pyInt b := by
  rw [pyInt_of_nonneg ha, pyInt_of_nonneg (ha.trans hab)]
  exact Int.floor_le_floor hab

theorem le_pyRound1 {n : ℤ} {q : ℚ} (h : (n : ℚ) ≤ q) : (n : ℚ) ≤ pyRound1 q := by
  have h10 : ((10 * n : ℤ) : ℚ) ≤ q * 10 + 1/2 := by push_cast; linarith
  have hr : (10 * n : ℤ) ≤ round (q * 10) := by
    rw [round_eq]; exact Int.le_floor.mpr h10
  have hcast : ((10 * n : ℤ) : ℚ) ≤ (round (q * 10) : ℚ) := by exact_mod_cast hr
  unfold pyRound1
  push_cast at hcast ⊢
  linarith

theorem pyRound1_le {n : ℤ} {q : ℚ} (h : q ≤ (n : ℚ)) : pyRound1 q ≤ (n : ℚ) := by
  have hr : round (q * 10) < 10 * n + 1 := by
    rw [round_eq]
    apply Int.floor_lt.mpr
    push_cast
    linarith
  have hr2 : round (q * 10) ≤ 10 * n := by omega
  have hcast : ((round (q * 10) : ℤ) : ℚ) ≤ ((10 * n : ℤ) : ℚ) := by exact_mod_cast hr2
  unfold pyRound1
  push_cast at hcast ⊢
  linarith

/-- On the fallback path the prep recommendation dominates the demand:
max(1, int(avg)) ≤ max(2, int(avg × 1.2)). -/
theorem fallback_demand_le_prep (avg : ℚ) :
    max 1 (pyInt avg) ≤ max 2 (pyInt (avg * (12/10))) := by
  rcases le_or_lt (pyInt avg) 2 with hle | hgt
  · exact le_trans (max_le (by norm_num) hle) (le_max_left _ _)
  · have havg : (0:ℚ) ≤ avg := by
      by_contra hneg
      push_neg at hneg
      have : pyInt avg = ⌈avg⌉ := if_neg (not_le.mpr hneg)
      have hce : ⌈avg⌉ ≤ 0 := Int.ceil_le.mpr (by exact_mod_cast le_of_lt hneg)
      omega
    have hmul : avg ≤ avg * (12/10) := by nlinarith
    have hmono := pyInt_mono havg hmul
    have h1 : max 1 (pyInt avg) = pyInt avg := max_eq_right (by omega)
    rw [h1]
    exact le_trans hmono (le_max_right _ _)

/-- On the model path the prep recommendation dominates the demand:
int(pv) ≤ max(2, int(pv × m)) once pv ≥ 1 and m ≥ 1. -/
theorem success_demand_le_prep {pv m : ℚ} (hpv : 1 ≤ pv) (hm : 1 ≤ m) :
    pyInt pv ≤ max 2 (pyInt (pv * m)) := by
  have h0 : (0:ℚ) ≤ pv := by linarith
  have hmul : pv ≤ pv * m := by nlinarith
  exact le_trans (pyInt_mono h0 hmul) (le_max_right _ _)

/-! Concrete data frames used by counterexamples and witnesses. -/

/-- Scenario B of the spec: one dish, one daypart, exactly four
observations with quantities 3, 4, 3, 5 (mean 15/4 = 3.75). -/
def dfA : List Row :=
  [⟨"d1", "Dal", "morning", 0, 3, 3⟩, ⟨"d1", "Dal", "morning", 1, 3, 4⟩,
   ⟨"d1", "Dal", "morning", 2, 3, 3⟩, ⟨"d1", "Dal", "morning", 3, 3, 5⟩]

/-- Five observations of quantity 4 for one dish and daypart, enough to
reach the model path. -/
def dfB : List Row :=
  [⟨"d1", "Dal", "morning", 0, 3, 4⟩, ⟨"d1", "Dal", "morning", 1, 3, 4⟩,
   ⟨"d1", "Dal", "morning", 2, 3, 4⟩, ⟨"d1", "Dal", "morning", 3, 3, 4⟩,
   ⟨"d1", "Dal", "morning", 4, 3, 4⟩]

/-- A fit oracle returning point estimate 3.7 with interval [1, 2]. -/
def fitB : FitOracle := fun _ => some (37/10, 1, 2)

/-- A single observation: dish d1 sold quantity 3 one morning; the
afternoon and evening dayparts have no observations at all. -/
def dfC : List Row := [⟨"d1", "Dal", "morning", 0, 3, 3⟩]

/-- A fit oracle that always fails (the fallback path never consults it). -/
def fitNone : FitOracle := fun _ => none

/-- C1, counterexample: on quantities [3,4,3,5] (mean 15/4) the code
truncates with int() rather than rounding, yielding predicted_demand 3
where the claim computes max(1, round(15/4)) = 4, and recommended_prep
max(2, int(15/4 × 1.2)) = 4 where the claim computes
max(2, round(4 × 1.2)) = 5. -/
theorem c1_fallback_rounding_counterexample :
    (predict_dish_demand dfA "d1" "Dal" "morning" ⟨0, 3⟩ "2025-01-02" fitNone).map
        Forecast.predicted_demand = some 3 ∧
    max 1 (round ((15:ℚ)/4)) = 4 ∧
    (predict_dish_demand dfA "d1" "Dal" "morning" ⟨0, 3⟩ "2025-01-02" fitNone).map
        Forecast.recommended_prep = some 4 ∧
    max 2 (round ((4:ℚ) * (12/10))) = 5 := by
  refine ⟨?_, by norm_num [round_eq], ?_, by norm_num [round_eq]⟩ <;>
    norm_num [predict_dish_demand, dishData, dfA, fitNone, listMean, pyInt]

/-- C1 (amended): with fewer than 5 observations the fallback forecast
is always produced (never raises) with predicted_demand =
max(1, int(avg)) and recommended_prep = max(2, int(avg × 1.2)), where
avg is the mean of the available quantities (or 5 if there are none),
int() truncates toward zero, recommended_prep is computed from avg
itself rather than from predicted_demand, confidence is 60.0 exactly,
and the factors are the two fixed fallback strings. -/
theorem c1_fallback_policy (df : List Row) (did dname p : String) (t : PyDate)
    (td : String) (fit : FitOracle) (h : (dishData df did p).length < 5) :
    predict_dish_demand df did dname p t td fit =
      (let avg : ℚ := if dishData df did p = [] then 5
                      else listMean ((dishData df did p).map Row.y)
       some { dish_id := did, dish_name := dname, period := p
              predicted_demand := max 1 (pyInt avg)
              confidence := 60
              recommended_prep := max 2 (pyInt (avg * (12/10)))
              factors := ["Limited historical data", "Fallback average"]
              prediction_date := td }) := by
  simp only [predict_dish_demand, if_pos h]
  by_cases hdd : dishData df did p = []
  · simp [hdd]
  · have hlen : 0 < (dishData df did p).length := List.length_pos.mpr hdd
    simp [hdd, hlen]

/-- Witness for c1_fallback_policy at the Scenario B data frame. -/
theorem c1_fallback_policy_witness :
    predict_dish_demand dfA "d1" "Dal" "morning" ⟨0, 3⟩ "2025-01-02" fitNone =
      (let avg : ℚ := if dishData dfA "d1" "morning" = [] then 5
                      else listMean ((dishData dfA "d1" "morning").map Row.y)
       some { dish_id := "d1", dish_name := "Dal", period := "morning"
              predicted_demand := max 1 (pyInt avg)
              confidence := 60
              recommended_prep := max 2 (pyInt (avg * (12/10)))
              factors := ["Limited historical data", "Fallback average"]
              prediction_date := "2025-01-02" }) :=
  c1_fallback_policy dfA "d1" "Dal" "morning" ⟨0, 3⟩ "2025-01-02" fitNone (by decide)

/-- C4, counterexample: on an empty historical window the returned dict
is missing the dishes_processed key entirely (modelled as none), so it
does not contain dishes_processed = 0 as the claim states. -/
theorem c4_empty_history_counterexample :
    (generate_predictions [] ⟨0, 3⟩ "2025-01-02" fitNone).1.predictions_generated = 0 ∧
    (generate_predictions [] ⟨0, 3⟩ "2025-01-02" fitNone).1.dishes_processed = none ∧
    (generate_predictions [] ⟨0, 3⟩ "2025-01-02" fitNone).1.dishes_processed ≠ some 0 := by
  refine ⟨?_, ?_, ?_⟩ <;> decide

/-- C4 (amended): on an empty historical window generate_predictions
returns immediately and not as an error, with predictions_generated = 0
and the descriptive message, but the returned dict has no
dishes_processed key; nothing is written to the data-store. -/
theorem c4_empty_history (t : PyDate) (td : String) (fit : FitOracle)
    (table : List Forecast) :
    generate_and_save [] t td fit table =
      ({ predictions_generated := 0, dishes_processed := none
         target_date := none, message := "No historical data available" },
       table) := by
  simp [generate_and_save, generate_predictions]

/-- C2, counterexample: with point estimate 3.7 the code truncates
int(max(1, 3.7)) = 3 where the claim computes max(1, round(3.7)) = 4. -/
theorem c2_truncation_counterexample :
    (predict_dish_demand dfB "d1" "Dal" "morning" ⟨0, 3⟩ "2025-01-02" fitB).map
        Forecast.predicted_demand = some 3 ∧
    max 1 (round ((37:ℚ)/10)) = 4 := by
  constructor
  · have hmax : max (1:ℚ) (37/10) = 37/10 := max_eq_right (by norm_num)
    norm_num [predict_dish_demand, dishData, dfB, fitB, listMean, pyInt, hmax]
  · norm_num [round_eq]

/-- C2 (amended): on a successful fit, predicted_demand =
int(max(1, point_estimate)) with int() truncating toward zero;
confidence is the clamp of 100 − (width / mean × 100) to [50, 95]
rounded to one decimal, where the width uses the lower bound floored at
0; recommended_prep = max(2, int(max(1, point_estimate) × m)) computed
from the clamped point estimate (not the integer demand), with m = 1.2
when the unrounded confidence exceeds 80 and 1.3 otherwise. -/
theorem c2_success_postprocessing (df : List Row) (did dname p : String)
    (t : PyDate) (td : String) (fit : FitOracle) (yhat yl yu : ℚ)
    (h5 : ¬ (dishData df did p).length < 5)
    (hfit : fit (dishData df did p) = some (yhat, yl, yu)) :
    predict_dish_demand df did dname p t td fit =
      (let pv : ℚ := max 1 yhat
       let conf : ℚ := max 50 (min 95
         (100 - (yu - max 0 yl) / listMean ((dishData df did p).map Row.y) * 100))
       some { dish_id := did, dish_name := dname, period := p
              predicted_demand := pyInt pv
              confidence := pyRound1 conf
              recommended_prep :=
                max 2 (pyInt (pv * (if 80 < conf then 12/10 else 13/10)))
              factors := analyze_prediction_factors t p (dishData df did p)
              prediction_date := td }) := by
  simp only [predict_dish_demand, if_neg h5, hfit]

/-- Witness for c2_success_postprocessing at five constant observations
and a fit oracle with point estimate 3.7 and interval [1, 2]. -/
theorem c2_success_postprocessing_witness :
    predict_dish_demand dfB "d1" "Dal" "morning" ⟨0, 3⟩ "2025-01-02" fitB =
      (let pv : ℚ := max 1 (37/10)
       let conf : ℚ := max 50 (min 95
         (100 - (2 - max 0 1) / listMean ((dishData dfB "d1" "morning").map Row.y) * 100))
       some { dish_id := "d1", dish_name := "Dal", period := "morning"
              predicted_demand := pyInt pv
              confidence := pyRound1 conf
              recommended_prep :=
                max 2 (pyInt (pv * (if 80 < conf then 12/10 else 13/10)))
              factors := analyze_prediction_factors ⟨0, 3⟩ "morning" (dishData dfB "d1" "morning")
              prediction_date := "2025-01-02" }) :=
  c2_success_postprocessing dfB "d1" "Dal" "morning" ⟨0, 3⟩ "2025-01-02" fitB
    (37/10) 1 2 (by norm_num [dishData, dfB]) (by norm_num [fitB])

/-- C6: every forecast the engine produces, on either path, has
predicted_demand ≥ 1 and recommended_prep ≥ max(2, predicted_demand);
on the fallback path (fewer than 5 observations) the confidence is 60.0
exactly, and on the model path it lies in [50, 95]. -/
theorem c6_forecast_bounds (df : List Row) (did dname p : String) (t : PyDate)
    (td : String) (fit : FitOracle) (f : Forecast)
    (h : predict_dish_demand df did dname p t td fit = some f) :
    1 ≤ f.predicted_demand ∧
    max 2 f.predicted_demand ≤ f.recommended_prep ∧
    (if (dishData df did p).length < 5 then f.confidence = 60
     else 50 ≤ f.confidence ∧ f.confidence ≤ 95) := by
  by_cases h5 : (dishData df did p).length < 5
  · simp only [predict_dish_demand, if_pos h5, Option.some.injEq] at h
    subst h
    refine ⟨le_max_left _ _, ?_, ?_⟩
    · exact max_le (le_max_left _ _) (fallback_demand_le_prep _)
    · rw [if_pos h5]
  · simp only [predict_dish_demand, if_neg h5] at h
    rcases hfit : fit (dishData df did p) with _ | ⟨⟨yhat, yl, yu⟩⟩ <;>
      rw [hfit] at h
    · simp at h
    · simp only [Option.some.injEq] at h
      subst h
      have hpv : (1:ℚ) ≤ max 1 yhat := le_max_left _ _
      refine ⟨?_, ?_, ?_⟩
      · exact le_pyInt (by norm_num) (by exact_mod_cast hpv)
      · refine max_le (le_max_left _ _) ?_
        exact success_demand_le_prep hpv (by split_ifs <;> norm_num)
      · rw [if_neg h5]
        set conf : ℚ := max 50 (min 95
          (100 - (yu - max 0 yl) / listMean ((dishData df did p).map Row.y) * 100)) with hconf
        have h50 : (50:ℚ) ≤ conf := le_max_left _ _
        have h95 : conf ≤ 95 := max_le (by norm_num) (min_le_left _ _)
        constructor
        · have := le_pyRound1 (n := 50) (q := conf) (by exact_mod_cast h50)
          exact_mod_cast this
        · have := pyRound1_le (n := 95) (q := conf) (by exact_mod_cast h95)
          exact_mod_cast this

/-- The concrete forecast produced on the Scenario B fallback data. -/
def fA6 : Forecast :=
  ⟨"d1", "Dal", "morning", 3, 60, 4,
   ["Limited historical data", "Fallback average"], "2025-01-02"⟩

/-- Witness for c6_forecast_bounds at the Scenario B data frame. -/
theorem c6_forecast_bounds_witness :
    1 ≤ fA6.predicted_demand ∧
    max 2 fA6.predicted_demand ≤ fA6.recommended_prep ∧
    (if (dishData dfA "d1" "morning").length < 5 then fA6.confidence = 60
     else 50 ≤ fA6.confidence ∧ fA6.confidence ≤ 95) :=
  c6_forecast_bounds dfA "d1" "Dal" "morning" ⟨0, 3⟩ "2025-01-02" fitNone fA6
    (by norm_num [predict_dish_demand, dishData, dfA, fitNone, listMean, pyInt, fA6,
          max_def])

/-- Length of a filterMap counts the inputs on which the function
produced a value. -/
theorem length_filterMap_eq_countP (f : α → Option β) (l : List α) :
    (l.filterMap f).length = l.countP (fun a => (f a).isSome) := by
  induction l with
  | nil => rfl
  | cons x xs ih => cases hfx : f x <;> simp [List.filterMap_cons, hfx, List.countP_cons, ih]

/-- C7: per-combination fit failures are skipped without aborting the
batch: dishes_processed counts every distinct dish iterated regardless
of failures, predictions_generated equals the number of forecasts
actually accumulated, and that number counts exactly the (dish,
daypart) combinations on which _predict_dish_demand produced a
forecast. -/
theorem c7_failure_isolation_counts (df : List Row) (t : PyDate) (td : String)
    (fit : FitOracle) (h : df ≠ []) :
    (generate_predictions df t td fit).1.dishes_processed =
      some (unique_dishes df).length ∧
    (generate_predictions df t td fit).1.predictions_generated =
      (generate_predictions df t td fit).2.length ∧
    (generate_predictions df t td fit).2.length =
      ((unique_dishes df).map (fun d => periods.countP
        (fun p => (predict_dish_demand df d.1 d.2 p t td fit).isSome))).sum := by
  have hlen : ¬ df.length = 0 := by
    simpa [List.length_eq_zero] using h
  refine ⟨?_, ?_, ?_⟩
  · simp only [generate_predictions, if_neg hlen]
  · simp only [generate_predictions, if_neg hlen]
  · simp only [generate_predictions, if_neg hlen]
    rw [List.length_flatMap]
    congr 1
    apply List.map_congr_left
    intro d _
    exact length_filterMap_eq_countP _ _

/-- Witness for c7_failure_isolation_counts at the one-row frame. -/
theorem c7_failure_isolation_counts_witness :
    (generate_predictions dfC ⟨0, 3⟩ "2025-01-02" fitNone).1.dishes_processed =
      some (unique_dishes dfC).length ∧
    (generate_predictions dfC ⟨0, 3⟩ "2025-01-02" fitNone).1.predictions_generated =
      (generate_predictions dfC ⟨0, 3⟩ "2025-01-02" fitNone).2.length ∧
    (generate_predictions dfC ⟨0, 3⟩ "2025-01-02" fitNone).2.length =
      ((unique_dishes dfC).map (fun d => periods.countP
        (fun p => (predict_dish_demand dfC d.1 d.2 p ⟨0, 3⟩ "2025-01-02" fitNone).isSome))).sum :=
  c7_failure_isolation_counts dfC ⟨0, 3⟩ "2025-01-02" fitNone (by simp [dfC])

/-- C9, counterexample: dish d1 has zero observations in the evening
daypart, yet a forecast for (d1, evening) is still produced (the
fallback fires with the default mean of 5); so forecasts are not
limited to observed (dish, daypart) pairs. -/
theorem c9_unobserved_daypart_counterexample :
    (dishData dfC "d1" "evening").length = 0 ∧
    (generate_predictions dfC ⟨0, 3⟩ "2025-01-02" fitNone).2.countP
      (fun f => f.period = "evening") = 1 := by
  constructor
  · decide
  · simp [generate_predictions, unique_dishes, dfC, periods, predict_dish_demand,
      dishData, fitNone, List.countP_cons]

/-- C9 (amended): generate_predictions builds a forecast for every dish
observed in the window crossed with all three dayparts, not only the
observed (dish, daypart) pairs: a combination with zero observations
still yields a fallback forecast from the default mean of 5
(predicted_demand 5, confidence 60.0, recommended_prep 6), and that
forecast is among the predictions accumulated for persistence. -/
theorem c9_all_dayparts_forecast (df : List Row) (did dname p : String)
    (t : PyDate) (td : String) (fit : FitOracle)
    (hd : (did, dname) ∈ unique_dishes df) (hp : p ∈ periods)
    (h0 : (dishData df did p).length = 0) :
    predict_dish_demand df did dname p t td fit =
      some { dish_id := did, dish_name := dname, period := p
             predicted_demand := 5, confidence := 60, recommended_prep := 6
             factors := ["Limited historical data", "Fallback average"]
             prediction_date := td } ∧
    { dish_id := did, dish_name := dname, period := p
      predicted_demand := 5, confidence := 60, recommended_prep := 6
      factors := ["Limited historical data", "Fallback average"]
      prediction_date := td : Forecast } ∈ (generate_predictions df t td fit).2 := by
  have h5 : (dishData df did p).length < 5 := by omega
  have hmain : predict_dish_demand df did dname p t td fit =
      some { dish_id := did, dish_name := dname, period := p
             predicted_demand := 5, confidence := 60, recommended_prep := 6
             factors := ["Limited historical data", "Fallback average"]
             prediction_date := td } := by
    simp only [predict_dish_demand, if_pos h5, h0]
    norm_num [pyInt]
  refine ⟨hmain, ?_⟩
  have hdf : ¬ df.length = 0 := by
    intro hzero
    rw [List.length_eq_zero] at hzero
    subst hzero
    simp [unique_dishes] at hd
  simp only [generate_predictions, if_neg hdf]
  exact List.mem_flatMap.mpr ⟨(did, dname), hd,
    List.mem_filterMap.mpr ⟨p, hp, hmain⟩⟩

/-- Witness for c9_all_dayparts_forecast: dish d1 is observed (in the
morning) but has no evening observations. -/
theorem c9_all_dayparts_forecast_witness :
    predict_dish_demand dfC "d1" "Dal" "evening" ⟨0, 3⟩ "2025-01-02" fitNone =
      some { dish_id := "d1", dish_name := "Dal", period := "evening"
             predicted_demand := 5, confidence := 60, recommended_prep := 6
             factors := ["Limited historical data", "Fallback average"]
             prediction_date := "2025-01-02" } :=
  (c9_all_dayparts_forecast dfC "d1" "Dal" "evening" ⟨0, 3⟩ "2025-01-02" fitNone
    (by decide) (by decide) (by decide)).1

/-- Row filter keeping the rows whose key is outside ks. -/
def keyNotIn (ks : List (String × String × String)) (r : Forecast) : Bool :=
  !(decide (predKey r ∈ ks))

/-- Closed form of save_predictions when the incoming predictions have
pairwise distinct keys: rows conflicting on the UNIQUE key are dropped
from the table and the new rows are appended in order. -/
theorem save_predictions_closed_form (preds : List Forecast) :
    ∀ table : List Forecast, (preds.map predKey).Nodup →
      save_predictions table preds =
        table.filter (keyNotIn (preds.map predKey)) ++ preds := by
  induction preds with
  | nil =>
    intro table _
    simp only [save_predictions, List.foldl_nil, List.map_nil, List.append_nil]
    exact (List.filter_eq_self.mpr (fun a _ => by simp [keyNotIn])).symm
  | cons p rest ih =>
    intro table hnd
    rw [List.map_cons, List.nodup_cons] at hnd
    obtain ⟨hp, hrest⟩ := hnd
    have step : save_predictions table (p :: rest) =
        save_predictions (insertOrReplace table p) rest := rfl
    rw [step, ih _ hrest, insertOrReplace, List.filter_append]
    have hsingle : [p].filter (keyNotIn (rest.map predKey)) = [p] := by
      simp [keyNotIn, hp]
    rw [hsingle, List.filter_filter]
    have hcongr : table.filter
          (fun a => keyNotIn (rest.map predKey) a &&
            decide (predKey a ≠ predKey p)) =
        table.filter (keyNotIn ((p :: rest).map predKey)) := by
      apply List.filter_congr
      intro x _
      by_cases h1 : predKey x = predKey p <;>
        by_cases h2 : predKey x ∈ rest.map predKey <;>
          simp [keyNotIn, h1, h2]
    rw [hcongr]
    simp [List.append_assoc]

/-- C5: regenerating and saving the forecasts for the same target date
with unchanged historical data is idempotent on the predictions table:
the second run leaves exactly the rows of the first run, the row count
does not grow, and the table after the first run has no duplicate
(dish_id, prediction_date, period) keys. -/
theorem c5_regenerate_idempotent (df : List Row) (t : PyDate) (td : String)
    (fit : FitOracle) (table : List Forecast)
    (hkeys : (((generate_predictions df t td fit).2).map predKey).Nodup)
    (htable : (table.map predKey).Nodup) :
    (generate_and_save df t td fit
        ((generate_and_save df t td fit table).2)).2 =
      (generate_and_save df t td fit table).2 ∧
    ((generate_and_save df t td fit
        ((generate_and_save df t td fit table).2)).2).length =
      ((generate_and_save df t td fit table).2).length ∧
    (((generate_and_save df t td fit table).2).map predKey).Nodup := by
  by_cases hlen : (generate_predictions df t td fit).2.length = 0
  · constructor
    · simp [generate_and_save, hlen]
    · constructor
      · simp [generate_and_save, hlen]
      · simp only [generate_and_save, hlen, if_pos]
        exact htable
  · have hs1 : (generate_and_save df t td fit table).2 =
        save_predictions table (generate_predictions df t td fit).2 := by
      simp [generate_and_save, hlen]
    have hclosed := save_predictions_closed_form
      (generate_predictions df t td fit).2 table hkeys
    set ps := (generate_predictions df t td fit).2 with hps
    set K := keyNotIn (ps.map predKey) with hK
    have hKps : ps.filter K = [] := by
      apply List.filter_eq_nil_iff.mpr
      intro a ha
      simp [hK, keyNotIn]
      exact ⟨a, ha, rfl⟩
    have hKidem : (table.filter K).filter K = table.filter K :=
      List.filter_eq_self.mpr (fun a ha => List.of_mem_filter ha)
    have hs2 : (generate_and_save df t td fit
        ((generate_and_save df t td fit table).2)).2 =
        save_predictions (table.filter K ++ ps) ps := by
      rw [hs1, hclosed]
      simp [generate_and_save, hlen, ← hps]
    have hsecond : save_predictions (table.filter K ++ ps) ps =
        table.filter K ++ ps := by
      rw [save_predictions_closed_form ps _ hkeys, List.filter_append, hKps,
        List.append_nil, ← hK, hKidem]
    have hfinal : (generate_and_save df t td fit
        ((generate_and_save df t td fit table).2)).2 =
        (generate_and_save df t td fit table).2 := by
      rw [hs2, hsecond, hs1, hclosed]
    refine ⟨hfinal, by rw [hfinal], ?_⟩
    rw [hs1, hclosed, List.map_append]
    apply List.Nodup.append
    · exact ((List.filter_sublist table).map predKey).nodup htable
    · exact hkeys
    · intro k hk1 hk2
      obtain ⟨r, hr, hrk⟩ := List.mem_map.mp hk1
      have hKr := List.of_mem_filter hr
      rw [hK] at hKr
      simp only [keyNotIn, Bool.not_eq_eq_eq_not, Bool.not_true,
        decide_eq_false_iff_not] at hKr
      rw [← hrk] at hk2
      exact hKr hk2

/-- Witness for c5_regenerate_idempotent: the one-row frame generates
three distinctly keyed fallback forecasts saved into an empty table. -/
theorem c5_regenerate_idempotent_witness :
    (generate_and_save dfC ⟨0, 3⟩ "2025-01-02" fitNone
        ((generate_and_save dfC ⟨0, 3⟩ "2025-01-02" fitNone []).2)).2 =
      (generate_and_save dfC ⟨0, 3⟩ "2025-01-02" fitNone []).2 ∧
    ((generate_and_save dfC ⟨0, 3⟩ "2025-01-02" fitNone
        ((generate_and_save dfC ⟨0, 3⟩ "2025-01-02" fitNone []).2)).2).length =
      ((generate_and_save dfC ⟨0, 3⟩ "2025-01-02" fitNone []).2).length ∧
    (((generate_and_save dfC ⟨0, 3⟩ "2025-01-02" fitNone []).2).map predKey).Nodup :=
  c5_regenerate_idempotent dfC ⟨0, 3⟩ "2025-01-02" fitNone []
    (by simp [generate_predictions, unique_dishes, dfC, periods,
          predict_dish_demand, dishData, fitNone, predKey])
    (by simp)

/-- Over any finite sequence of failing cycles the sync loop keeps
continuing: it never breaks or exits on a cycle error. -/
theorem sync_loop_run_failures (fails : List (String × String)) :
    ∀ st : SyncState, st.is_running = true →
      ∃ n, (sync_loop_run st (fails.map
        (fun x => (x.1, CycleOutcome.failure x.2)))).2 = .continuing n := by
  induction fails with
  | nil =>
    intro st _
    exact ⟨st.sync_interval, rfl⟩
  | cons f rest ih =>
    intro st hrun
    have h2 : (sync_loop_step f.1 st (.failure f.2)).1.is_running = true ∧
        (sync_loop_step f.1 st (.failure f.2)).2 = .continuing 60 := by
      simp [sync_loop_step, manual_sync, hrun]
    rcases hstep : sync_loop_step f.1 st (.failure f.2) with ⟨st1, act⟩
    rw [hstep] at h2
    obtain ⟨hrun1, hact⟩ := h2
    simp only at hact
    subst hact
    have : sync_loop_run st ((f :: rest).map
        (fun x => (x.1, CycleOutcome.failure x.2))) =
        sync_loop_run st1 (rest.map (fun x => (x.1, CycleOutcome.failure x.2))) := by
      simp only [List.map_cons, sync_loop_run, hstep]
    rw [this]
    exact ih st1 hrun1

/-- C3: an uncaught cycle failure inside the background loop appends an
error entry with its message to the sync log, appends the error to the
in-memory errors list, makes the loop sleep the fixed 60-second
back-off and continue; over every finite sequence of cycle failures the
loop never breaks or exits — the iteration always continues. -/
theorem c3_loop_survives_cycle_failures (now msg : String) (st : SyncState)
    (hrun : st.is_running = true) :
    (sync_loop_step now st (.failure msg)).1.sync_log =
      st.sync_log ++ [{ sync_type := "auto_sync", status := "error"
                        records_affected := 0
                        error_message := some ("Sync failed: " ++ msg) }] ∧
    (sync_loop_step now st (.failure msg)).1.errors =
      st.errors ++ [now ++ ": " ++ ("Sync failed: " ++ msg), now ++ ": " ++ msg] ∧
    (sync_loop_step now st (.failure msg)).2 = .continuing 60 ∧
    (∀ fails : List (String × String), ∃ n,
      (sync_loop_run st (fails.map (fun x => (x.1, CycleOutcome.failure x.2)))).2 =
        LoopAction.continuing n) := by
  refine ⟨?_, ?_, ?_, fun fails => sync_loop_run_failures fails st hrun⟩ <;>
    simp [sync_loop_step, manual_sync, hrun]

/-- A concrete running sync-service state. -/
def stR : SyncState :=
  { is_running := true, last_sync := none, sync_interval := 3600
    errors := [], sync_log := [] }

/-- Witness for c3_loop_survives_cycle_failures on a fresh running state. -/
theorem c3_loop_survives_cycle_failures_witness :
    (sync_loop_step "2025-01-02T00:00:00" stR (.failure "boom")).1.sync_log =
      stR.sync_log ++ [{ sync_type := "auto_sync", status := "error"
                         records_affected := 0
                         error_message := some ("Sync failed: " ++ "boom") }] ∧
    (sync_loop_step "2025-01-02T00:00:00" stR (.failure "boom")).1.errors =
      stR.errors ++ ["2025-01-02T00:00:00" ++ ": " ++ ("Sync failed: " ++ "boom"),
                     "2025-01-02T00:00:00" ++ ": " ++ "boom"] ∧
    (sync_loop_step "2025-01-02T00:00:00" stR (.failure "boom")).2 = .continuing 60 :=
  ⟨(c3_loop_survives_cycle_failures "2025-01-02T00:00:00" "boom" stR rfl).1,
   (c3_loop_survives_cycle_failures "2025-01-02T00:00:00" "boom" stR rfl).2.1,
   (c3_loop_survives_cycle_failures "2025-01-02T00:00:00" "boom" stR rfl).2.2.1⟩

/-- C10: a failing cycle inside the loop records the error twice in the
in-memory list (once by manual_sync before re-raising, once by the loop
handler), so total_errors grows by exactly 2; a stand-alone failing
manual_sync grows it by exactly 1; and recent_errors always holds at
most the last 5 entries. -/
theorem c10_errors_recorded_twice (now msg : String) (st : SyncState)
    (hrun : st.is_running = true) :
    (get_status (sync_loop_step now st (.failure msg)).1).total_errors =
      (get_status st).total_errors + 2 ∧
    (get_status (manual_sync now st (.failure msg)).1).total_errors =
      (get_status st).total_errors + 1 ∧
    ∀ st2 : SyncState, (get_status st2).recent_errors.length ≤ 5 := by
  refine ⟨?_, ?_, fun st2 => ?_⟩
  · simp [get_status, sync_loop_step, manual_sync, hrun]
  · simp [get_status, manual_sync]
  · simp only [get_status, pyTail, List.length_drop]
    omega

/-- Witness for c10_errors_recorded_twice on a fresh running state. -/
theorem c10_errors_recorded_twice_witness :
    (get_status (sync_loop_step "2025-01-02T00:00:00" stR (.failure "boom")).1).total_errors =
      (get_status stR).total_errors + 2 ∧
    (get_status (manual_sync "2025-01-02T00:00:00" stR (.failure "boom")).1).total_errors =
      (get_status stR).total_errors + 1 :=
  ⟨(c10_errors_recorded_twice "2025-01-02T00:00:00" "boom" stR rfl).1,
   (c10_errors_recorded_twice "2025-01-02T00:00:00" "boom" stR rfl).2.1⟩

/-- The fixed daypart label attached for each iterated period. -/
def daypart_label (p : String) : String :=
  if p = "morning" then "Breakfast/morning rush"
  else if p = "afternoon" then "Lunch period demand"
  else "Dinner rush period"

theorem weekend_factor_length (t : PyDate) (hist : List Row) :
    (weekend_factor t hist).length ≤ 1 := by
  simp only [weekend_factor]
  split_ifs <;> simp

theorem period_factor_eq {p : String} (hp : p ∈ periods) :
    period_factor p = [daypart_label p] := by
  simp only [periods, List.mem_cons, List.not_mem_nil, or_false] at hp
  rcases hp with h | h | h <;> subst h <;> simp [period_factor, daypart_label]

theorem trend_factor_mem (hist : List Row) (h5 : 5 ≤ hist.length) :
    trend_factor hist = ["Upward trend detected"] ∨
    trend_factor hist = ["Downward trend detected"] ∨
    trend_factor hist = ["Stable demand pattern"] := by
  have hrec : 5 ≤ (pyTail 10 hist).length := by
    simp only [pyTail, List.length_drop]
    omega
  simp only [trend_factor]
  rw [if_pos hrec]
  split_ifs <;> simp

theorem season_factor_length (t : PyDate) : (season_factor t).length ≤ 1 := by
  simp only [season_factor]
  split_ifs <;> simp

/-- Shape of the factor list on the model path: an optional
weekend/weekday entry, the daypart label, a trend entry (present since
the path guarantees at least 5 recent observations), an optional
seasonal entry, in that order; the truncation to 4 never removes
anything because the four sections contribute at most one entry each. -/
theorem analyze_factors_decomposition (t : PyDate) (p : String) (hist : List Row)
    (hp : p ∈ periods) (h5 : 5 ≤ hist.length) :
    ∃ w tr s, w.length ≤ 1 ∧ s.length ≤ 1 ∧
      (tr = "Upward trend detected" ∨ tr = "Downward trend detected" ∨
        tr = "Stable demand pattern") ∧
      analyze_prediction_factors t p hist =
        w ++ ([daypart_label p] ++ ([tr] ++ s)) := by
  have hw := weekend_factor_length t hist
  have hs := season_factor_length t
  have htake : ∀ tr : String, trend_factor hist = [tr] →
      analyze_prediction_factors t p hist =
        weekend_factor t hist ++ ([daypart_label p] ++ ([tr] ++ season_factor t)) := by
    intro tr htr
    simp only [analyze_prediction_factors, period_factor_eq hp, htr]
    rw [List.take_of_length_le]
    · simp [List.append_assoc]
    · simp only [List.length_append, List.length_cons, List.length_nil]
      omega
  obtain htr | htr | htr := trend_factor_mem hist h5
  · exact ⟨weekend_factor t hist, _, season_factor t, hw, hs, Or.inl rfl, htake _ htr⟩
  · exact ⟨weekend_factor t hist, _, season_factor t, hw, hs, Or.inr (Or.inl rfl),
      htake _ htr⟩
  · exact ⟨weekend_factor t hist, _, season_factor t, hw, hs, Or.inr (Or.inr rfl),
      htake _ htr⟩

/-- C8: on the model path the factor list has between 1 and 4 entries,
always contains the fixed daypart label, and lists its entries in the
fixed priority order (weekend/weekday comparison, daypart label, trend
label — present since the path guarantees at least 5 recent
observations — then seasonal label), truncated to the first 4. -/
theorem c8_factors_shape (df : List Row) (did dname p : String) (t : PyDate)
    (td : String) (fit : FitOracle) (f : Forecast)
    (hp : p ∈ periods) (h5 : ¬ (dishData df did p).length < 5)
    (h : predict_dish_demand df did dname p t td fit = some f) :
    1 ≤ f.factors.length ∧ f.factors.length ≤ 4 ∧
    daypart_label p ∈ f.factors ∧
    ∃ w tr s, w.length ≤ 1 ∧ s.length ≤ 1 ∧
      (tr = "Upward trend detected" ∨ tr = "Downward trend detected" ∨
        tr = "Stable demand pattern") ∧
      f.factors = w ++ ([daypart_label p] ++ ([tr] ++ s)) := by
  simp only [predict_dish_demand, if_neg h5] at h
  rcases hfit : fit (dishData df did p) with _ | ⟨⟨yhat, yl, yu⟩⟩ <;> rw [hfit] at h
  · simp at h
  · simp only [Option.some.injEq] at h
    have hfac : f.factors = analyze_prediction_factors t p (dishData df did p) := by
      rw [← h]
    obtain ⟨w, tr, s, hw, hs, htr, heq⟩ :=
      analyze_factors_decomposition t p (dishData df did p) hp (by omega)
    rw [heq] at hfac
    refine ⟨?_, ?_, ?_, w, tr, s, hw, hs, htr, hfac⟩
    · rw [hfac]
      simp only [List.length_append, List.length_cons, List.length_nil]
      omega
    · rw [hfac]
      simp only [List.length_append, List.length_cons, List.length_nil]
      omega
    · rw [hfac]
      simp

/-- The forecast record produced on the model path for dfB with fitB. -/
def fB8 : Forecast :=
  let pv : ℚ := max 1 (37/10)
  let conf : ℚ := max 50 (min 95
    (100 - (2 - max 0 1) / listMean ((dishData dfB "d1" "morning").map Row.y) * 100))
  { dish_id := "d1", dish_name := "Dal", period := "morning"
    predicted_demand := pyInt pv
    confidence := pyRound1 conf
    recommended_prep := max 2 (pyInt (pv * (if 80 < conf then 12/10 else 13/10)))
    factors := analyze_prediction_factors ⟨0, 3⟩ "morning" (dishData dfB "d1" "morning")
    prediction_date := "2025-01-02" }

/-- Witness for c8_factors_shape on the model path of dfB with fitB. -/
theorem c8_factors_shape_witness :
    1 ≤ fB8.factors.length ∧ fB8.factors.length ≤ 4 ∧
    daypart_label "morning" ∈ fB8.factors := by
  have h5 : ¬ (dishData dfB "d1" "morning").length < 5 := by decide
  have hfit : fitB (dishData dfB "d1" "morning") = some (37/10, 1, 2) := rfl
  have H := c8_factors_shape dfB "d1" "Dal" "morning" ⟨0, 3⟩ "2025-01-02" fitB fB8
    (by decide) h5
    (by simp only [predict_dish_demand, if_neg h5, hfit, fB8])
  exact ⟨H.1, H.2.1, H.2.2.1⟩

end RMS
